import Mathlib

/- Verification of the detection post-processing pipeline of the
   defect_spotter application.

   Embedded source: src/src/services/gemini.ts (class GeminiLiveClient:
   calculateIoU, generateSpatialKey, checkTemporalConsistency,
   shouldSuppressNMS, trackConfirmedDetection, isDuplicate, trackDetection,
   parseDefectResponse, stop) and src/src/services/forensicTypes.ts
   (class ForensicLiveClient: isDuplicate, handleEvidenceDetection, stop).

   Conventions of the shallow embedding:
   - JavaScript numbers are modelled as rationals (the claims under test
     only involve arithmetic that is exact in both doubles and rationals).
   - Timestamps (Date.now values, milliseconds) are modelled as integers;
     the value of Date.now at a call is passed explicitly as a parameter.
   - The comparison Math.sqrt(s) < tol of isDuplicate is modelled as
     s < tol ^ 2, which is equivalent over the reals for 0 < tol because
     the square root is strictly monotone.
   - The mutable per-client collections (recentDetections, temporalBuffer,
     confirmedDetections) are passed in and returned explicitly; a
     JavaScript Map is modelled as an association list in insertion order,
     with Map.set replacing in place or appending, as the runtime does. -/

namespace DefectSpotter

/-- Bounding box in normalized coordinates, the object literal
shape pattern used throughout gemini.ts and forensicTypes.ts:
they are records with fields ymin, xmin, ymax, xmax. -/
structure Box where
  ymin : ℚ
  xmin : ℚ
  ymax : ℚ
  xmax : ℚ
deriving DecidableEq

namespace Gemini

/-- Source: gemini.ts line 157. -/
def DEDUP_TIME_WINDOW_MS : ℤ := 30000

/-- Source: gemini.ts line 158. -/
def DEDUP_SPATIAL_TOLERANCE : ℚ := 15/100

/-- Source: gemini.ts line 159 (value 60, comment notes it was lowered). -/
def MIN_CONFIDENCE_THRESHOLD : ℚ := 60

/-- Source: gemini.ts line 162 (deployed value 1). -/
def TEMPORAL_THRESHOLD : ℕ := 1

/-- Source: gemini.ts line 163. -/
def TEMPORAL_WINDOW_MS : ℤ := 3000

/-- Source: gemini.ts line 164. -/
def IOU_THRESHOLD : ℚ := 1/4

/-- Source: gemini.ts line 167. -/
def NMS_IOU_THRESHOLD : ℚ := 1/2

/-- Source: gemini.ts line 168. -/
def NMS_WINDOW_MS : ℤ := 5000

end Gemini

namespace Forensic

/-- Source: forensicTypes.ts line 159. -/
def DEDUP_TIME_WINDOW_MS : ℤ := 45000

/-- Source: forensicTypes.ts line 160. -/
def DEDUP_SPATIAL_TOLERANCE : ℚ := 12/100

/-- Source: forensicTypes.ts line 161. -/
def MIN_CONFIDENCE_THRESHOLD : ℚ := 70

end Forensic

/-- Area term box1Area / box2Area of calculateIoU (gemini.ts lines 222-223):
(xmax - xmin) * (ymax - ymin). -/
def boxArea (b : Box) : ℚ :=
  (b.xmax - b.xmin) * (b.ymax - b.ymin)

/-- Intersection term of calculateIoU (gemini.ts lines 216-221):
Math.max(0, xB - xA) * Math.max(0, yB - yA) with xA/yA the maxima of the
min-corners and xB/yB the minima of the max-corners. -/
def interArea (b1 b2 : Box) : ℚ :=
  max 0 (min b1.xmax b2.xmax - max b1.xmin b2.xmin) *
    max 0 (min b1.ymax b2.ymax - max b1.ymin b2.ymin)

/-- Union term of calculateIoU (gemini.ts line 224). -/
def unionArea (b1 b2 : Box) : ℚ :=
  boxArea b1 + boxArea b2 - interArea b1 b2

/-- Source: GeminiLiveClient.calculateIoU (gemini.ts lines 212-227):
returns intersection / union when union > 0, otherwise 0. -/
def calculateIoU (box1 box2 : Box) : ℚ :=
  if 0 < unionArea box1 box2 then interArea box1 box2 / unionArea box1 box2
  else 0

/-- Math.round: rounds to the nearest integer, halves toward positive
infinity; equal to the floor of x + 1/2 for every real x. -/
def jsRound (q : ℚ) : ℤ := ⌊q + 1/2⌋

/-- Source: GeminiLiveClient.generateSpatialKey (gemini.ts lines 230-234):
lowercased type concatenated with the box center quantized to a tenth. -/
def generateSpatialKey (defectType : String) (bbox : Box) : String :=
  let centerX := jsRound ((bbox.xmin + bbox.xmax) / 2 * 10)
  let centerY := jsRound ((bbox.ymin + bbox.ymax) / 2 * 10)
  defectType.toLower ++ "_" ++ toString centerX ++ "_" ++ toString centerY

/-- Record type RecentDetection (gemini.ts lines 171-175) and
RecentForensicDetection (forensicTypes.ts lines 163-167); the two are
identical up to the name of the label field. -/
structure RecentDetection where
  defectType : String
  bbox : Option Box
  timestamp : ℤ
deriving DecidableEq

/-- Center-distance test of isDuplicate (gemini.ts lines 359-366,
forensicTypes.ts lines 225-231): Math.sqrt(dx^2 + dy^2) < tol, modelled
without the square root as dx^2 + dy^2 < tol^2. -/
def dedupClose (b1 b2 : Box) (tol : ℚ) : Bool :=
  decide (((b1.xmin + b1.xmax) / 2 - (b2.xmin + b2.xmax) / 2) ^ 2 +
      ((b1.ymin + b1.ymax) / 2 - (b2.ymin + b2.ymax) / 2) ^ 2 < tol ^ 2)

/-- Spatial part of the duplicate condition (gemini.ts lines 357-372):
when both sides carry a box the centers must be close; in every other
case (either side missing its box) the branch answers true, because the
source returns true from the else branch whenever the pair of boxes is
not complete. -/
def dedupBoxCond (tol : ℚ) : Option Box → Option Box → Bool
  | some b, some rb => dedupClose b rb tol
  | _, _ => true

/-- Condition under which one retained record makes the candidate a
duplicate, from the loop body of isDuplicate (gemini.ts lines 353-373):
the type must match case-insensitively and the spatial condition must
hold. -/
def dedupMatches (tol : ℚ) (defectType : String) (bbox : Option Box)
    (r : RecentDetection) : Bool :=
  r.defectType.toLower == defectType.toLower && dedupBoxCond tol bbox r.bbox

/-- Source: GeminiLiveClient.isDuplicate (gemini.ts lines 346-376) and
ForensicLiveClient.isDuplicate (forensicTypes.ts lines 217-239), which
differ only in the window and tolerance constants, passed here as
parameters. Returns the boolean result together with the pruned list that
the method stores back into this.recentDetections. -/
def isDuplicate (window : ℤ) (tol : ℚ) (now : ℤ)
    (recents : List RecentDetection) (defectType : String)
    (bbox : Option Box) : Bool × List RecentDetection :=
  let pruned := recents.filter fun d => decide (now - d.timestamp < window)
  (pruned.any (dedupMatches tol defectType bbox), pruned)

/-- Source: GeminiLiveClient.trackDetection (gemini.ts lines 379-385) and
ForensicLiveClient.trackDetection (forensicTypes.ts lines 241-247). -/
def trackDetection (now : ℤ) (recents : List RecentDetection)
    (defectType : String) (bbox : Option Box) : List RecentDetection :=
  recents ++ [⟨defectType, bbox, now⟩]

/-- Spatial condition exactly as the specification claim words it: both
sides have boxes with close centers, or neither side has a box; a mixed
pair is not a duplicate under the claimed criterion. -/
def specBoxCond (tol : ℚ) : Option Box → Option Box → Bool
  | some b, some rb => dedupClose b rb tol
  | none, none => true
  | _, _ => false

/-- Duplicate criterion exactly as the specification claim words it, for
comparison with the code: some record younger than the window with the
same type case-insensitively AND either (a) both the candidate and the
record have boxes with close centers, or (b) neither the candidate nor
the record has a box. This is the claimed predicate, not the code; the
code also answers true when exactly one side has a box. -/
def specDuplicate (window : ℤ) (tol : ℚ) (now : ℤ)
    (recents : List RecentDetection) (defectType : String)
    (bbox : Option Box) : Bool :=
  recents.any fun r =>
    decide (now - r.timestamp < window) &&
      (r.defectType.toLower == defectType.toLower) &&
      specBoxCond tol bbox r.bbox

/-- Record type TemporalDetection (gemini.ts lines 178-185). -/
structure TemporalDetection where
  defectType : String
  bbox : Box
  confidence : ℚ
  frameCount : ℕ
  firstSeen : ℤ
  lastSeen : ℤ
deriving DecidableEq

/-- The Map String TemporalDetection of gemini.ts line 204, modelled as an
association list in insertion order. -/
abbrev TemporalBuffer := List (String × TemporalDetection)

/-- JavaScript Map.prototype.set: replaces the value in place when the key
is present, otherwise appends the new binding at the end. -/
def mapSet (buf : TemporalBuffer) (key : String) (v : TemporalDetection) :
    TemporalBuffer :=
  if buf.any fun e => e.1 == key then
    buf.map fun e => if e.1 == key then (key, v) else e
  else
    buf ++ [(key, v)]

/-- Match test of the temporal loop (gemini.ts lines 253-255): same type
case-insensitively and IoU at least IOU_THRESHOLD. -/
def temporalMatches (defectType : String) (bbox : Box)
    (d : TemporalDetection) : Bool :=
  d.defectType.toLower == defectType.toLower &&
    decide (Gemini.IOU_THRESHOLD ≤ calculateIoU d.bbox bbox)

/-- In-place update of a matched candidate (gemini.ts lines 256-259):
frameCount incremented, lastSeen set to now, confidence raised to the
maximum of the stored and the new value. -/
def temporalUpdate (now : ℤ) (confidence : ℚ)
    (d : TemporalDetection) : TemporalDetection :=
  { d with
      frameCount := d.frameCount + 1
      lastSeen := now
      confidence := max d.confidence confidence }

/-- Loop over the temporal buffer (gemini.ts lines 252-268): the first
entry that matches is updated in place and the loop returns; when no
entry matches the loop falls through (none). -/
def temporalLoop (threshold : ℕ) (now : ℤ) (defectType : String)
    (bbox : Box) (confidence : ℚ) :
    TemporalBuffer → Option ((Bool × ℕ) × TemporalBuffer)
  | [] => none
  | (k, d) :: rest =>
    if temporalMatches defectType bbox d then
      some ((decide (threshold ≤ d.frameCount + 1), d.frameCount + 1),
        (k, temporalUpdate now confidence d) :: rest)
    else
      match temporalLoop threshold now defectType bbox confidence rest with
      | some (r, rest') => some (r, (k, d) :: rest')
      | none => none

/-- Source: GeminiLiveClient.checkTemporalConsistency (gemini.ts lines
237-286): prune entries whose lastSeen is older than TEMPORAL_WINDOW_MS,
update the first matching candidate, otherwise insert a fresh candidate
keyed by generateSpatialKey with frameCount 1. The source reads the module
constant TEMPORAL_THRESHOLD (deployed value 1); the threshold is taken
here as a parameter so that both configurations of the same code can be
stated, as the specification does. Returns the pair (isConfirmed,
frameCount) together with the new buffer. -/
def checkTemporalConsistency (threshold : ℕ) (now : ℤ)
    (buf : TemporalBuffer) (defectType : String) (bbox : Box)
    (confidence : ℚ) : (Bool × ℕ) × TemporalBuffer :=
  let pruned := buf.filter fun e =>
    decide (now - e.2.lastSeen ≤ Gemini.TEMPORAL_WINDOW_MS)
  match temporalLoop threshold now defectType bbox confidence pruned with
  | some r => r
  | none =>
    ((decide (threshold ≤ 1), 1),
      mapSet pruned (generateSpatialKey defectType bbox)
        ⟨defectType, bbox, confidence, 1, now, now⟩)

/-- Record type ConfirmedDetection (gemini.ts lines 188-193). -/
structure ConfirmedDetection where
  defectType : String
  bbox : Box
  confidence : ℚ
  timestamp : ℤ
deriving DecidableEq

/-- Time pruning of the NMS list (gemini.ts lines 297-299): keep records
strictly younger than NMS_WINDOW_MS. -/
def pruneNMS (now : ℤ) (l : List ConfirmedDetection) :
    List ConfirmedDetection :=
  l.filter fun d => decide (now - d.timestamp < Gemini.NMS_WINDOW_MS)

/-- Source: GeminiLiveClient.shouldSuppressNMS (gemini.ts lines 289-317):
after pruning, suppress iff some retained record overlaps with IoU at
least NMS_IOU_THRESHOLD and the new confidence is less than or equal to
the stored one. Returns the boolean together with the pruned list that
the method stores back into this.confirmedDetections. The defectType
argument is used by the source only for a console log. -/
def shouldSuppressNMS (now : ℤ) (confirmed : List ConfirmedDetection)
    (defectType : String) (bbox : Box) (confidence : ℚ) :
    Bool × List ConfirmedDetection :=
  let pruned := pruneNMS now confirmed
  (pruned.any fun c =>
      decide (Gemini.NMS_IOU_THRESHOLD ≤ calculateIoU c.bbox bbox) &&
        decide (confidence ≤ c.confidence),
    pruned)

/-- Source: GeminiLiveClient.trackConfirmedDetection (gemini.ts lines
320-343): evict every record that overlaps the new box with IoU at least
NMS_IOU_THRESHOLD and has strictly lower confidence, then append the new
record. No time pruning happens here. -/
def trackConfirmedDetection (now : ℤ) (confirmed : List ConfirmedDetection)
    (defectType : String) (bbox : Box) (confidence : ℚ) :
    List ConfirmedDetection :=
  (confirmed.filter fun d =>
      !(decide (Gemini.NMS_IOU_THRESHOLD ≤ calculateIoU d.bbox bbox) &&
          decide (d.confidence < confidence))) ++
    [⟨defectType, bbox, confidence, now⟩]

/-- Math.max(0, Math.min(1, q)), the clamp used by parseDefectResponse
(gemini.ts lines 666-671) and handleEvidenceDetection (forensicTypes.ts
lines 493-498). -/
def clamp01 (q : ℚ) : ℚ := max 0 (min 1 q)

/-- Lower coordinate after the inversion fix of parseDefectResponse
(gemini.ts lines 662-663): the min coordinate, or the max one when the
pair arrived inverted. -/
def loSwap (u v : ℚ) : ℚ := if v < u then v else u

/-- Upper coordinate after the inversion fix of parseDefectResponse
(gemini.ts lines 662-663). -/
def hiSwap (u v : ℚ) : ℚ := if v < u then u else v

/-- Swap, clamp and degeneracy check of parseDefectResponse (gemini.ts
lines 661-677): swap an inverted pair, clamp all four values to [0,1],
and discard the box (none) when the clamped box has ymax ≤ ymin or
xmax ≤ xmin. -/
def fixAndClamp (ymin xmin ymax xmax : ℚ) : Option Box :=
  let b : Box := ⟨clamp01 (loSwap ymin ymax), clamp01 (loSwap xmin xmax),
    clamp01 (hiSwap ymin ymax), clamp01 (hiSwap xmin xmax)⟩
  if b.ymax ≤ b.ymin ∨ b.xmax ≤ b.xmin then none else some b

/-- Scale auto-detection and normalization of parseDefectResponse
(gemini.ts lines 636-677): maxCoord = Math.max(ymin, xmin, ymax, xmax);
divide by 1000 when maxCoord > 100, by 100 when maxCoord > 1, otherwise
leave unscaled; then swap, clamp and reject via fixAndClamp. -/
def normalizeBox (ymin xmin ymax xmax : ℚ) : Option Box :=
  let maxCoord := max (max ymin xmin) (max ymax xmax)
  if 100 < maxCoord then
    fixAndClamp (ymin / 1000) (xmin / 1000) (ymax / 1000) (xmax / 1000)
  else if 1 < maxCoord then
    fixAndClamp (ymin / 100) (xmin / 100) (ymax / 100) (xmax / 100)
  else
    fixAndClamp ymin xmin ymax xmax

/-- Strict box validation of parseDefectResponse (gemini.ts lines
680-705): with width = xmax - xmin and height = ymax - ymin, the box is
discarded when area < 0.001, or area > 0.70, or the aspect quotient
max(w,h)/min(w,h) exceeds 15. -/
def boxSanityDiscard (b : Box) : Bool :=
  let boxWidth := b.xmax - b.xmin
  let boxHeight := b.ymax - b.ymin
  let area := boxWidth * boxHeight
  let aspect := max boxWidth boxHeight / min boxWidth boxHeight
  decide (area < 1/1000) || decide (7/10 < area) || decide (15 < aspect)

/-- Full bounding-box treatment of parseDefectResponse for a numeric
4-tuple (gemini.ts lines 627-707): normalize, then apply the sanity
filters; none means the detection proceeds box-less. -/
def parseBoundingBox (ymin xmin ymax xmax : ℚ) : Option Box :=
  (normalizeBox ymin xmin ymax xmax).bind fun b =>
    if boxSanityDiscard b then none else some b

/-- Source: ForensicLiveClient.handleEvidenceDetection (forensicTypes.ts
lines 488-500): a numeric 4-tuple is only clamped componentwise to [0,1];
there is no scale detection, no swap of inverted pairs and no degeneracy
or sanity check on this path. -/
def forensicParseBox (ymin xmin ymax xmax : ℚ) : Box :=
  ⟨clamp01 ymin, clamp01 xmin, clamp01 ymax, clamp01 xmax⟩

/-- Confidence resolution of parseDefectResponse (gemini.ts lines
609-619) and handleEvidenceDetection (forensicTypes.ts lines 478-479):
none models an absent or non-numeric confidence field, which defaults to
70; the result is clamped to [0,100]. -/
def resolveConfidence (c : Option ℚ) : ℚ :=
  max 0 (min 100 (c.getD 70))

/-- Confidence gate (gemini.ts lines 621-625, forensicTypes.ts lines
481-485): the detection is dropped (none) when the resolved confidence is
strictly below the threshold, otherwise it proceeds with the resolved
confidence. -/
def validateConfidence (threshold : ℚ) (c : Option ℚ) : Option ℚ :=
  let conf := resolveConfidence c
  if conf < threshold then none else some conf

/-- The three rolling collections of GeminiLiveClient (gemini.ts lines
203-205). -/
structure ClientFilterState where
  recentDetections : List RecentDetection
  temporalBuffer : TemporalBuffer
  confirmedDetections : List ConfirmedDetection
deriving DecidableEq

/-- Source: GeminiLiveClient.stop (gemini.ts lines 948-951): the cache
clearing performed on stop; every rolling collection becomes empty. -/
def stopClient (_s : ClientFilterState) : ClientFilterState where
  recentDetections := []
  temporalBuffer := []
  confirmedDetections := []

/-- Source: ForensicLiveClient.stop (forensicTypes.ts line 809): the
forensic client clears its only rolling collection. -/
def forensicStop (_recents : List RecentDetection) :
    List RecentDetection := []

/-- Label-erasing projection of a confirmed NMS record, used to state
that the NMS stage treats the type label as payload only. -/
def stripLabel (r : ConfirmedDetection) : Box × ℚ × ℤ :=
  (r.bbox, r.confidence, r.timestamp)

/-- Concrete well-formed box used in scenario statements. -/
def exampleBox : Box := ⟨1/5, 1/5, 2/5, 2/5⟩

/-- Concrete type label used in scenario statements. -/
def crackLabel : String := "crack"

/-- Second concrete type label, used to exercise cross-type behavior. -/
def stainLabel : String := "water stain"

/- ------------------------------------------------------------------ -/
/- Helper lemmas about the geometry functions.                        -/
/- ------------------------------------------------------------------ -/

lemma interArea_nonneg (a b : Box) : 0 ≤ interArea a b :=
  mul_nonneg (le_max_left 0 _) (le_max_left 0 _)

lemma interArea_comm (a b : Box) : interArea a b = interArea b a := by
  unfold interArea
  rw [min_comm a.xmax b.xmax, max_comm a.xmin b.xmin,
    min_comm a.ymax b.ymax, max_comm a.ymin b.ymin]

lemma unionArea_comm (a b : Box) : unionArea a b = unionArea b a := by
  unfold unionArea
  rw [interArea_comm]
  ring

lemma iou_comm (a b : Box) : calculateIoU a b = calculateIoU b a := by
  unfold calculateIoU
  rw [interArea_comm, unionArea_comm]

lemma interArea_le_left (a b : Box) (h : 0 < interArea a b) :
    interArea a b ≤ boxArea a := by
  unfold interArea at h ⊢
  set u := min a.xmax b.xmax - max a.xmin b.xmin with hu
  set v := min a.ymax b.ymax - max a.ymin b.ymin with hv
  have hfac : 0 < max 0 u ∧ 0 < max 0 v := by
    rcases mul_pos_iff.1 h with ⟨h1, h2⟩ | ⟨h1, h2⟩
    · exact ⟨h1, h2⟩
    · exact absurd h1 (not_lt.2 (le_max_left 0 u))
  obtain ⟨hu0, hv0⟩ := hfac
  have hup : 0 < u := ((lt_max_iff.1 hu0).resolve_left (lt_irrefl 0))
  have hvp : 0 < v := ((lt_max_iff.1 hv0).resolve_left (lt_irrefl 0))
  rw [max_eq_right hup.le, max_eq_right hvp.le]
  have h1 : u ≤ a.xmax - a.xmin := by
    rw [hu]; exact sub_le_sub (min_le_left _ _) (le_max_left _ _)
  have h2 : v ≤ a.ymax - a.ymin := by
    rw [hv]; exact sub_le_sub (min_le_left _ _) (le_max_left _ _)
  unfold boxArea
  exact mul_le_mul h1 h2 hvp.le (hup.trans_le h1).le

lemma interArea_le_right (a b : Box) (h : 0 < interArea a b) :
    interArea a b ≤ boxArea b := by
  rw [interArea_comm]
  exact interArea_le_left b a (interArea_comm a b ▸ h)

lemma iou_nonneg (a b : Box) : 0 ≤ calculateIoU a b := by
  unfold calculateIoU
  split
  case isTrue hu => exact div_nonneg (interArea_nonneg a b) hu.le
  case isFalse => exact le_refl 0

lemma iou_le_one (a b : Box) : calculateIoU a b ≤ 1 := by
  unfold calculateIoU
  split
  case isTrue hu =>
    rw [div_le_one hu]
    rcases lt_or_le 0 (interArea a b) with hp | hp
    · have h1 := interArea_le_left a b hp
      have h2 := interArea_le_right a b hp
      unfold unionArea
      linarith
    · exact hp.trans hu.le
  case isFalse => norm_num

lemma iou_self (a : Box) (hx : a.xmin < a.xmax) (hy : a.ymin < a.ymax) :
    calculateIoU a a = 1 := by
  have hi : interArea a a = boxArea a := by
    unfold interArea boxArea
    rw [min_self, max_self, min_self, max_self,
      max_eq_right (sub_nonneg.2 hx.le), max_eq_right (sub_nonneg.2 hy.le)]
  have hpos : 0 < boxArea a := mul_pos (sub_pos.2 hx) (sub_pos.2 hy)
  unfold calculateIoU unionArea
  rw [hi]
  have hsum : boxArea a + boxArea a - boxArea a = boxArea a := by ring
  rw [hsum, if_pos hpos, div_self hpos.ne']

lemma iou_union_nonpos (a b : Box) (h : unionArea a b ≤ 0) :
    calculateIoU a b = 0 := by
  unfold calculateIoU
  rw [if_neg (not_lt.2 h)]

/- ------------------------------------------------------------------ -/
/- Helper lemmas about clamping and normalization.                    -/
/- ------------------------------------------------------------------ -/

lemma clamp01_nonneg (q : ℚ) : 0 ≤ clamp01 q := le_max_left 0 _

lemma clamp01_le_one (q : ℚ) : clamp01 q ≤ 1 :=
  max_le (by norm_num) (min_le_left 1 q)

lemma clamp01_id {q : ℚ} (h0 : 0 ≤ q) (h1 : q ≤ 1) : clamp01 q = q := by
  unfold clamp01
  rw [min_eq_right h1, max_eq_right h0]

lemma loSwap_eq {u v : ℚ} (h : u ≤ v) : loSwap u v = u := by
  unfold loSwap
  rw [if_neg (not_lt.2 h)]

lemma hiSwap_eq {u v : ℚ} (h : u ≤ v) : hiSwap u v = v := by
  unfold hiSwap
  rw [if_neg (not_lt.2 h)]

lemma fixAndClamp_some {a b c d : ℚ} {bx : Box}
    (h : fixAndClamp a b c d = some bx) :
    (0 ≤ bx.ymin ∧ bx.ymin ≤ 1) ∧ (0 ≤ bx.xmin ∧ bx.xmin ≤ 1) ∧
      (0 ≤ bx.ymax ∧ bx.ymax ≤ 1) ∧ (0 ≤ bx.xmax ∧ bx.xmax ≤ 1) ∧
      bx.ymin < bx.ymax ∧ bx.xmin < bx.xmax := by
  simp only [fixAndClamp] at h
  split at h
  · simp at h
  case isFalse hguard =>
    push_neg at hguard
    obtain rfl : Box.mk _ _ _ _ = bx := Option.some.inj h
    exact ⟨⟨clamp01_nonneg _, clamp01_le_one _⟩, ⟨clamp01_nonneg _, clamp01_le_one _⟩,
      ⟨clamp01_nonneg _, clamp01_le_one _⟩, ⟨clamp01_nonneg _, clamp01_le_one _⟩,
      hguard.1, hguard.2⟩

lemma fixAndClamp_id {y0 x0 y1 x1 : ℚ} (hy0 : 0 ≤ y0) (hy : y0 < y1)
    (hy1 : y1 ≤ 1) (hx0 : 0 ≤ x0) (hx : x0 < x1) (hx1 : x1 ≤ 1) :
    fixAndClamp y0 x0 y1 x1 = some ⟨y0, x0, y1, x1⟩ := by
  simp only [fixAndClamp]
  rw [loSwap_eq hy.le, hiSwap_eq hy.le, loSwap_eq hx.le, hiSwap_eq hx.le]
  rw [clamp01_id hy0 (hy.le.trans hy1), clamp01_id hx0 (hx.le.trans hx1),
    clamp01_id (hy0.trans hy.le) hy1, clamp01_id (hx0.trans hx.le) hx1]
  rw [if_neg]
  push_neg
  exact ⟨hy, hx⟩

lemma normalizeBox_scale1000 {y0 x0 y1 x1 : ℚ}
    (h : 100 < max (max y0 x0) (max y1 x1)) :
    normalizeBox y0 x0 y1 x1 =
      fixAndClamp (y0 / 1000) (x0 / 1000) (y1 / 1000) (x1 / 1000) := by
  simp only [normalizeBox]
  rw [if_pos h]

lemma normalizeBox_scale100 {y0 x0 y1 x1 : ℚ}
    (h1 : 1 < max (max y0 x0) (max y1 x1))
    (h2 : max (max y0 x0) (max y1 x1) ≤ 100) :
    normalizeBox y0 x0 y1 x1 =
      fixAndClamp (y0 / 100) (x0 / 100) (y1 / 100) (x1 / 100) := by
  simp only [normalizeBox]
  rw [if_neg (not_lt.2 h2), if_pos h1]

lemma normalizeBox_noscale {y0 x0 y1 x1 : ℚ}
    (h : max (max y0 x0) (max y1 x1) ≤ 1) :
    normalizeBox y0 x0 y1 x1 = fixAndClamp y0 x0 y1 x1 := by
  simp only [normalizeBox]
  rw [if_neg (not_lt.2 (h.trans (by norm_num))), if_neg (not_lt.2 h)]

lemma normalizeBox_some {y0 x0 y1 x1 : ℚ} {bx : Box}
    (h : normalizeBox y0 x0 y1 x1 = some bx) :
    (0 ≤ bx.ymin ∧ bx.ymin ≤ 1) ∧ (0 ≤ bx.xmin ∧ bx.xmin ≤ 1) ∧
      (0 ≤ bx.ymax ∧ bx.ymax ≤ 1) ∧ (0 ≤ bx.xmax ∧ bx.xmax ≤ 1) ∧
      bx.ymin < bx.ymax ∧ bx.xmin < bx.xmax := by
  simp only [normalizeBox] at h
  split at h
  · exact fixAndClamp_some h
  split at h
  · exact fixAndClamp_some h
  · exact fixAndClamp_some h

lemma normalizeBox_id {y0 x0 y1 x1 : ℚ} (hy0 : 0 ≤ y0) (hy : y0 < y1)
    (hy1 : y1 ≤ 1) (hx0 : 0 ≤ x0) (hx : x0 < x1) (hx1 : x1 ≤ 1) :
    normalizeBox y0 x0 y1 x1 = some ⟨y0, x0, y1, x1⟩ := by
  have hm : max (max y0 x0) (max y1 x1) ≤ 1 :=
    max_le (max_le (hy.le.trans hy1) (hx.le.trans hx1)) (max_le hy1 hx1)
  rw [normalizeBox_noscale hm]
  exact fixAndClamp_id hy0 hy hy1 hx0 hx hx1

lemma normalizeBox_example :
    normalizeBox 200 150 450 180 = some ⟨1/5, 3/20, 9/20, 9/50⟩ := by
  have hmax : (100 : ℚ) < max (max 200 150) (max 450 180) :=
    lt_max_iff.2 (Or.inr (lt_max_iff.2 (Or.inl (by norm_num))))
  rw [normalizeBox_scale1000 hmax]
  have e1 : (200 : ℚ) / 1000 = 1/5 := by norm_num
  have e2 : (150 : ℚ) / 1000 = 3/20 := by norm_num
  have e3 : (450 : ℚ) / 1000 = 9/20 := by norm_num
  have e4 : (180 : ℚ) / 1000 = 9/50 := by norm_num
  rw [e1, e2, e3, e4]
  exact fixAndClamp_id (by norm_num) (by norm_num) (by norm_num)
    (by norm_num) (by norm_num) (by norm_num)

lemma normalizeBox_degenerate {y0 x0 : ℚ} (h1 : y0 ≤ 1) (hx1 : x0 ≤ 1) :
    normalizeBox y0 x0 y0 x0 = none := by
  have hm : max (max y0 x0) (max y0 x0) ≤ 1 := by
    rw [max_self]
    exact max_le h1 hx1
  rw [normalizeBox_noscale hm]
  simp only [fixAndClamp]
  rw [loSwap_eq (le_refl y0), hiSwap_eq (le_refl y0), loSwap_eq (le_refl x0),
    hiSwap_eq (le_refl x0)]
  rw [if_pos (Or.inl (le_refl _))]

lemma parseBoundingBox_some {y0 x0 y1 x1 : ℚ} {bx : Box}
    (h : parseBoundingBox y0 x0 y1 x1 = some bx) :
    normalizeBox y0 x0 y1 x1 = some bx ∧ boxSanityDiscard bx = false := by
  unfold parseBoundingBox at h
  cases hn : normalizeBox y0 x0 y1 x1 with
  | none =>
    rw [hn] at h
    simp at h
  | some b =>
    rw [hn] at h
    simp only [Option.some_bind] at h
    split at h
    · simp at h
    case isFalse hs =>
      obtain rfl : b = bx := Option.some.inj h
      exact ⟨rfl, Bool.of_not_eq_true hs⟩

lemma boxSanityDiscard_iff (b : Box) :
    boxSanityDiscard b = true ↔
      (b.xmax - b.xmin) * (b.ymax - b.ymin) < 1/1000 ∨
        7/10 < (b.xmax - b.xmin) * (b.ymax - b.ymin) ∨
        15 < max (b.xmax - b.xmin) (b.ymax - b.ymin) /
              min (b.xmax - b.xmin) (b.ymax - b.ymin) := by
  simp [boxSanityDiscard, or_assoc]

/- ------------------------------------------------------------------ -/
/- Claim theorems: geometry (IoU) and normalization.                  -/
/- ------------------------------------------------------------------ -/

/-- Claim C8, counterexample to the self-IoU part as stated: the box
with ymin = 1, xmin = 1, ymax = 0, xmax = 0 has positive area
(width and height are both negative, so their product is positive), yet
calculateIoU of the box with itself is 0, not 1. -/
theorem iou_claim_counterexample :
    0 < boxArea ⟨1, 1, 0, 0⟩ ∧
      calculateIoU ⟨1, 1, 0, 0⟩ ⟨1, 1, 0, 0⟩ ≠ 1 := by
  constructor
  · norm_num [boxArea]
  · have h : calculateIoU ⟨1, 1, 0, 0⟩ ⟨1, 1, 0, 0⟩ = 0 := by
      norm_num [calculateIoU, interArea, unionArea, boxArea, max_def, min_def]
    rw [h]
    norm_num

/-- Claim C8 (amended): calculateIoU is symmetric and bounded by [0,1]
for all boxes, returns 0 whenever the union area is not positive, and
equals 1 on the diagonal for every box with positive width and height
(positive area alone does not suffice, as the counterexample shows). -/
theorem iou_claim :
    (∀ a b : Box, calculateIoU a b = calculateIoU b a) ∧
      (∀ a b : Box, 0 ≤ calculateIoU a b ∧ calculateIoU a b ≤ 1) ∧
      (∀ a : Box, a.xmin < a.xmax → a.ymin < a.ymax → calculateIoU a a = 1) ∧
      (∀ a b : Box, unionArea a b ≤ 0 → calculateIoU a b = 0) :=
  ⟨iou_comm, fun a b => ⟨iou_nonneg a b, iou_le_one a b⟩, iou_self,
    iou_union_nonpos⟩

/-- Witness for the amended C8 theorem at a concrete box. -/
theorem iou_claim_witness :
    calculateIoU ⟨0, 0, 1, 1⟩ ⟨0, 0, 1, 1⟩ = 1 :=
  iou_claim.2.2.1 ⟨0, 0, 1, 1⟩ (by norm_num) (by norm_num)

/-- Claim C1: scale auto-detection (divide by 1000 above 100, by 100 in
(1, 100], unscaled otherwise, followed by swap, clamp and degenerate-box
rejection), idempotence on boxes already satisfying the NormalizedBox
invariant, rejection of zero-size input, and the concrete normalization
of [200, 150, 450, 180] to {ymin 0.2, xmin 0.15, ymax 0.45, xmax 0.18}. -/
theorem normalizeBox_claim :
    (∀ y0 x0 y1 x1 : ℚ, 100 < max (max y0 x0) (max y1 x1) →
        normalizeBox y0 x0 y1 x1 =
          fixAndClamp (y0 / 1000) (x0 / 1000) (y1 / 1000) (x1 / 1000)) ∧
      (∀ y0 x0 y1 x1 : ℚ, 1 < max (max y0 x0) (max y1 x1) →
        max (max y0 x0) (max y1 x1) ≤ 100 →
        normalizeBox y0 x0 y1 x1 =
          fixAndClamp (y0 / 100) (x0 / 100) (y1 / 100) (x1 / 100)) ∧
      (∀ y0 x0 y1 x1 : ℚ, max (max y0 x0) (max y1 x1) ≤ 1 →
        normalizeBox y0 x0 y1 x1 = fixAndClamp y0 x0 y1 x1) ∧
      (∀ y0 x0 y1 x1 : ℚ, ∀ bx : Box, normalizeBox y0 x0 y1 x1 = some bx →
        (0 ≤ bx.ymin ∧ bx.ymin ≤ 1) ∧ (0 ≤ bx.xmin ∧ bx.xmin ≤ 1) ∧
          (0 ≤ bx.ymax ∧ bx.ymax ≤ 1) ∧ (0 ≤ bx.xmax ∧ bx.xmax ≤ 1) ∧
          bx.ymin < bx.ymax ∧ bx.xmin < bx.xmax) ∧
      (∀ y0 x0 y1 x1 : ℚ, 0 ≤ y0 → y0 < y1 → y1 ≤ 1 → 0 ≤ x0 → x0 < x1 →
        x1 ≤ 1 → normalizeBox y0 x0 y1 x1 = some ⟨y0, x0, y1, x1⟩) ∧
      (∀ y0 x0 : ℚ, y0 ≤ 1 → x0 ≤ 1 → normalizeBox y0 x0 y0 x0 = none) ∧
      normalizeBox 200 150 450 180 = some ⟨1/5, 3/20, 9/20, 9/50⟩ :=
  ⟨fun _ _ _ _ h => normalizeBox_scale1000 h,
    fun _ _ _ _ h1 h2 => normalizeBox_scale100 h1 h2,
    fun _ _ _ _ h => normalizeBox_noscale h,
    fun _ _ _ _ _ h => normalizeBox_some h,
    fun _ _ _ _ h1 h2 h3 h4 h5 h6 => normalizeBox_id h1 h2 h3 h4 h5 h6,
    fun _ _ h1 h2 => normalizeBox_degenerate h1 h2,
    normalizeBox_example⟩

/-- Witness for the C1 theorem: idempotence applied to the normalized
output of the end-to-end example. -/
theorem normalizeBox_claim_witness :
    normalizeBox (1/5) (3/20) (9/20) (9/50) =
      some ⟨1/5, 3/20, 9/20, 9/50⟩ :=
  normalizeBox_claim.2.2.2.2.1 (1/5) (3/20) (9/20) (9/50) (by norm_num)
    (by norm_num) (by norm_num) (by norm_num) (by norm_num) (by norm_num)

/-- Claim C6: a present box is discarded by the sanity stage exactly when
area < 0.001, or area > 0.70, or the aspect quotient exceeds 15; with the
concrete boundary cases area 0.0009 (discarded), area 0.0011 (kept),
aspect 16 (discarded) and aspect 14 (kept). -/
theorem boxSanity_claim :
    (∀ b : Box, b.xmin < b.xmax → b.ymin < b.ymax →
        (boxSanityDiscard b = true ↔
          (b.xmax - b.xmin) * (b.ymax - b.ymin) < 1/1000 ∨
            7/10 < (b.xmax - b.xmin) * (b.ymax - b.ymin) ∨
            15 < max (b.xmax - b.xmin) (b.ymax - b.ymin) /
                  min (b.xmax - b.xmin) (b.ymax - b.ymin))) ∧
      boxSanityDiscard ⟨0, 0, 3/100, 3/100⟩ = true ∧
      boxSanityDiscard ⟨0, 0, 11/300, 3/100⟩ = false ∧
      boxSanityDiscard ⟨0, 0, 1/100, 16/100⟩ = true ∧
      boxSanityDiscard ⟨0, 0, 1/100, 14/100⟩ = false := by
  refine ⟨fun b _ _ => boxSanityDiscard_iff b, ?_, ?_, ?_, ?_⟩
  · rw [boxSanityDiscard_iff]
    norm_num
  · simp only [boxSanityDiscard, Bool.or_eq_false_iff, decide_eq_false_iff_not]
    norm_num [max_def, min_def]
  · rw [boxSanityDiscard_iff]
    norm_num [max_def, min_def]
  · simp only [boxSanityDiscard, Bool.or_eq_false_iff, decide_eq_false_iff_not]
    norm_num [max_def, min_def]

/-- Witness for the C6 theorem at a concrete box with aspect quotient 16. -/
theorem boxSanity_claim_witness :
    boxSanityDiscard ⟨0, 0, 1/100, 16/100⟩ = true := by
  have h := boxSanity_claim.1 ⟨0, 0, 1/100, 16/100⟩ (by norm_num) (by norm_num)
  rw [h]
  norm_num [max_def, min_def]

/-- Claim C7, counterexample to the forensic half: the forensic evidence
path only clamps the four raw values, so the inverted tuple
[0.5, 0.5, 0.2, 0.3] produces a box with ymin = 0.5 and ymax = 0.2,
violating the NormalizedBox invariant ymin < ymax; this box is handed to
the forensic deduplication stage. -/
theorem box_invariant_counterexample :
    forensicParseBox (1/2) (1/2) (1/5) (3/10) = ⟨1/2, 1/2, 1/5, 3/10⟩ ∧
      ¬ (forensicParseBox (1/2) (1/2) (1/5) (3/10)).ymin <
          (forensicParseBox (1/2) (1/2) (1/5) (3/10)).ymax := by
  have h : forensicParseBox (1/2) (1/2) (1/5) (3/10) = ⟨1/2, 1/2, 1/5, 3/10⟩ := by
    unfold forensicParseBox
    rw [clamp01_id (by norm_num) (by norm_num), clamp01_id (by norm_num) (by norm_num),
      clamp01_id (by norm_num) (by norm_num)]
  refine ⟨h, ?_⟩
  rw [h]
  norm_num

/-- Claim C7 (amended): every box produced by the property-defect
validator (normalizeBox, with or without the later sanity filter)
satisfies the NormalizedBox invariant; the forensic path guarantees only
that all four coordinates lie in [0,1] and does not enforce the ordering
invariant. -/
theorem box_invariant_claim :
    (∀ y0 x0 y1 x1 : ℚ, ∀ bx : Box, parseBoundingBox y0 x0 y1 x1 = some bx →
        (0 ≤ bx.ymin ∧ bx.ymin ≤ 1) ∧ (0 ≤ bx.xmin ∧ bx.xmin ≤ 1) ∧
          (0 ≤ bx.ymax ∧ bx.ymax ≤ 1) ∧ (0 ≤ bx.xmax ∧ bx.xmax ≤ 1) ∧
          bx.ymin < bx.ymax ∧ bx.xmin < bx.xmax) ∧
      (∀ y0 x0 y1 x1 : ℚ,
        (0 ≤ (forensicParseBox y0 x0 y1 x1).ymin ∧
            (forensicParseBox y0 x0 y1 x1).ymin ≤ 1) ∧
          (0 ≤ (forensicParseBox y0 x0 y1 x1).xmin ∧
            (forensicParseBox y0 x0 y1 x1).xmin ≤ 1) ∧
          (0 ≤ (forensicParseBox y0 x0 y1 x1).ymax ∧
            (forensicParseBox y0 x0 y1 x1).ymax ≤ 1) ∧
          (0 ≤ (forensicParseBox y0 x0 y1 x1).xmax ∧
            (forensicParseBox y0 x0 y1 x1).xmax ≤ 1)) :=
  ⟨fun _ _ _ _ _ h => normalizeBox_some (parseBoundingBox_some h).1,
    fun _ _ _ _ =>
      ⟨⟨clamp01_nonneg _, clamp01_le_one _⟩, ⟨clamp01_nonneg _, clamp01_le_one _⟩,
        ⟨clamp01_nonneg _, clamp01_le_one _⟩, ⟨clamp01_nonneg _, clamp01_le_one _⟩⟩⟩

/-- Witness for the amended C7 theorem at the end-to-end example box. -/
theorem box_invariant_claim_witness :
    (0 ≤ (Box.mk (1/5) (3/20) (9/20) (9/50)).ymin ∧
        (Box.mk (1/5) (3/20) (9/20) (9/50)).ymin ≤ 1) ∧
      (0 ≤ (Box.mk (1/5) (3/20) (9/20) (9/50)).xmin ∧
        (Box.mk (1/5) (3/20) (9/20) (9/50)).xmin ≤ 1) ∧
      (0 ≤ (Box.mk (1/5) (3/20) (9/20) (9/50)).ymax ∧
        (Box.mk (1/5) (3/20) (9/20) (9/50)).ymax ≤ 1) ∧
      (0 ≤ (Box.mk (1/5) (3/20) (9/20) (9/50)).xmax ∧
        (Box.mk (1/5) (3/20) (9/20) (9/50)).xmax ≤ 1) ∧
      (Box.mk (1/5) (3/20) (9/20) (9/50)).ymin <
        (Box.mk (1/5) (3/20) (9/20) (9/50)).ymax ∧
      (Box.mk (1/5) (3/20) (9/20) (9/50)).xmin <
        (Box.mk (1/5) (3/20) (9/20) (9/50)).xmax :=
  box_invariant_claim.1 200 150 450 180 ⟨1/5, 3/20, 9/20, 9/50⟩ (by
    have hs : boxSanityDiscard ⟨1/5, 3/20, 9/20, 9/50⟩ = false := by
      simp only [boxSanityDiscard, Bool.or_eq_false_iff, decide_eq_false_iff_not]
      norm_num [max_def, min_def]
    unfold parseBoundingBox
    rw [normalizeBox_example, Option.some_bind, hs]
    simp)

/- ------------------------------------------------------------------ -/
/- Claim theorems: confidence handling (C5).                          -/
/- ------------------------------------------------------------------ -/

/-- Claim C5, behavior of the code at the failing input: an absent or
non-numeric confidence defaults to 70 and is clamped into [0,100], and a
detection is dropped exactly when its resolved confidence is strictly
below the threshold; but the default 70 is NOT below either acceptance
threshold (60 in the property profile, 70 in the forensic profile), so a
payload without a confidence field passes the gate in both profiles,
contradicting the claim (and the comments in the source) that such a
payload is never reported. -/
theorem confidence_default_claim :
    resolveConfidence none = 70 ∧
      (∀ c : Option ℚ, 0 ≤ resolveConfidence c ∧ resolveConfidence c ≤ 100) ∧
      (∀ threshold : ℚ, ∀ c : Option ℚ,
        validateConfidence threshold c = none ↔
          resolveConfidence c < threshold) ∧
      validateConfidence Gemini.MIN_CONFIDENCE_THRESHOLD none = some 70 ∧
      validateConfidence Forensic.MIN_CONFIDENCE_THRESHOLD none = some 70 := by
  have hres : resolveConfidence none = 70 := by
    unfold resolveConfidence
    rw [Option.getD_none, min_eq_right (by norm_num : (70:ℚ) ≤ 100),
      max_eq_right (by norm_num : (0:ℚ) ≤ 70)]
  refine ⟨hres, fun c => ⟨le_max_left 0 _, max_le (by norm_num) (min_le_left _ _)⟩,
    ?_, ?_, ?_⟩
  · intro threshold c
    simp only [validateConfidence]
    split_ifs with h
    · simp [h]
    · simp [h]
  · simp only [validateConfidence]
    rw [hres,
      if_neg (by norm_num [Gemini.MIN_CONFIDENCE_THRESHOLD] :
        ¬((70 : ℚ) < Gemini.MIN_CONFIDENCE_THRESHOLD))]
  · simp only [validateConfidence]
    rw [hres,
      if_neg (by norm_num [Forensic.MIN_CONFIDENCE_THRESHOLD] :
        ¬((70 : ℚ) < Forensic.MIN_CONFIDENCE_THRESHOLD))]

/- ------------------------------------------------------------------ -/
/- Claim theorems: session reset (C9) and NMS type-independence (C10). -/
/- ------------------------------------------------------------------ -/

/-- Claim C9: after stop, the dedup list, the temporal buffer and the NMS
list are all empty (and the forensic client clears its dedup list), so in
the next session a detection identical to one tracked before stop is not
a duplicate, not a temporal match (its fresh candidate starts over at
frameCount 1), and not an NMS overlap. -/
theorem stop_claim :
    ∀ (s : ClientFilterState) (window now : ℤ) (tol confidence : ℚ)
      (threshold : ℕ) (t : String) (ob : Option Box) (b : Box),
      (stopClient s).recentDetections = [] ∧
        (stopClient s).temporalBuffer = [] ∧
        (stopClient s).confirmedDetections = [] ∧
        forensicStop s.recentDetections = [] ∧
        (isDuplicate window tol now (stopClient s).recentDetections t ob).1 =
          false ∧
        (checkTemporalConsistency threshold now (stopClient s).temporalBuffer
            t b confidence).1.2 = 1 ∧
        (shouldSuppressNMS now (stopClient s).confirmedDetections t b
            confidence).1 = false := by
  intro s window now tol confidence threshold t ob b
  refine ⟨rfl, rfl, rfl, rfl, ?_, ?_, ?_⟩
  · simp [isDuplicate, stopClient]
  · simp [checkTemporalConsistency, stopClient, temporalLoop, mapSet]
  · simp [shouldSuppressNMS, stopClient, pruneNMS]

/-- Claim C10: the NMS suppression check and the eviction performed by
the tracking operation do not depend on the type label (the label is
stored in the new record but never compared), so a confirmed detection of
one type can suppress or evict an overlapping detection of a different
type; illustrated by a stored crack record suppressing and being evicted
by a water stain detection. -/
theorem nms_type_agnostic_claim :
    (∀ (now : ℤ) (confirmed : List ConfirmedDetection) (t1 t2 : String)
        (b : Box) (c : ℚ),
        (shouldSuppressNMS now confirmed t1 b c).1 =
          (shouldSuppressNMS now confirmed t2 b c).1) ∧
      (∀ (now : ℤ) (confirmed : List ConfirmedDetection) (t1 t2 : String)
        (b : Box) (c : ℚ),
        (shouldSuppressNMS now confirmed t1 b c).2 =
          (shouldSuppressNMS now confirmed t2 b c).2) ∧
      (∀ (now : ℤ) (confirmed : List ConfirmedDetection) (t1 t2 : String)
        (b : Box) (c : ℚ),
        (trackConfirmedDetection now confirmed t1 b c).map stripLabel =
          (trackConfirmedDetection now confirmed t2 b c).map stripLabel) ∧
      (shouldSuppressNMS 100 [⟨crackLabel, ⟨0, 0, 1, 1⟩, 90, 0⟩] stainLabel
          ⟨0, 0, 1, 1⟩ 60).1 = true ∧
      trackConfirmedDetection 200 [⟨crackLabel, ⟨0, 0, 1, 1⟩, 60, 0⟩]
          stainLabel ⟨0, 0, 1, 1⟩ 90 =
        [⟨stainLabel, ⟨0, 0, 1, 1⟩, 90, 200⟩] := by
  have hiou : calculateIoU ⟨0, 0, 1, 1⟩ ⟨0, 0, 1, 1⟩ = 1 :=
    iou_self ⟨0, 0, 1, 1⟩ (by norm_num) (by norm_num)
  refine ⟨fun _ _ _ _ _ _ => rfl, fun _ _ _ _ _ _ => rfl,
    fun now confirmed t1 t2 b c => ?_, ?_, ?_⟩
  · simp [trackConfirmedDetection, stripLabel]
  · norm_num [shouldSuppressNMS, pruneNMS, List.filter_cons, List.filter_nil,
      List.any_cons, List.any_nil, hiou, Gemini.NMS_WINDOW_MS,
      Gemini.NMS_IOU_THRESHOLD]
  · norm_num [trackConfirmedDetection, List.filter_cons, List.filter_nil, hiou,
      Bool.not_eq_true', Bool.and_eq_false_iff, decide_eq_false_iff_not,
      Gemini.NMS_IOU_THRESHOLD]

/- ------------------------------------------------------------------ -/
/- Claim theorems: deduplication (C2).                                -/
/- ------------------------------------------------------------------ -/

lemma dedupClose_self (b : Box) {tol : ℚ} (h : 0 < tol) :
    dedupClose b b tol = true := by
  simp only [dedupClose, decide_eq_true_eq, sub_self]
  simpa using pow_pos h 2

lemma dedupMatches_iff (tol : ℚ) (t : String) (ob : Option Box)
    (r : RecentDetection) :
    dedupMatches tol t ob r = true ↔
      r.defectType.toLower = t.toLower ∧
        ((∃ b rb, ob = some b ∧ r.bbox = some rb ∧
            ((b.xmin + b.xmax) / 2 - (rb.xmin + rb.xmax) / 2) ^ 2 +
              ((b.ymin + b.ymax) / 2 - (rb.ymin + rb.ymax) / 2) ^ 2 <
              tol ^ 2) ∨
          ob = none ∨ r.bbox = none) := by
  obtain ⟨rt, rbb, rts⟩ := r
  cases ob with
  | none => cases rbb <;> simp [dedupMatches, dedupBoxCond]
  | some bb =>
    cases rbb with
    | none => simp [dedupMatches, dedupBoxCond]
    | some rbx => simp [dedupMatches, dedupBoxCond, dedupClose]

lemma isDuplicate_iff (window : ℤ) (tol : ℚ) (now : ℤ)
    (recents : List RecentDetection) (t : String) (ob : Option Box) :
    (isDuplicate window tol now recents t ob).1 = true ↔
      ∃ r ∈ recents, now - r.timestamp < window ∧
        r.defectType.toLower = t.toLower ∧
        ((∃ b rb, ob = some b ∧ r.bbox = some rb ∧
            ((b.xmin + b.xmax) / 2 - (rb.xmin + rb.xmax) / 2) ^ 2 +
              ((b.ymin + b.ymax) / 2 - (rb.ymin + rb.ymax) / 2) ^ 2 <
              tol ^ 2) ∨
          ob = none ∨ r.bbox = none) := by
  simp only [isDuplicate, List.any_eq_true, List.mem_filter, decide_eq_true_eq]
  constructor
  · rintro ⟨r, ⟨hm, hage⟩, hmatch⟩
    exact ⟨r, hm, hage, ((dedupMatches_iff tol t ob r).1 hmatch).1,
      ((dedupMatches_iff tol t ob r).1 hmatch).2⟩
  · rintro ⟨r, hm, hage, heq, hcond⟩
    exact ⟨r, ⟨hm, hage⟩, (dedupMatches_iff tol t ob r).2 ⟨heq, hcond⟩⟩

/-- Claim C2, counterexample to the claim as stated: a retained record of
the same type with NO box makes a candidate WITH a box a duplicate (the
code answers true whenever the pair of boxes is not complete), while the
claimed criterion (close boxes, or no box on both sides) is false for
this input. -/
theorem isDuplicate_claim_counterexample :
    (isDuplicate Gemini.DEDUP_TIME_WINDOW_MS Gemini.DEDUP_SPATIAL_TOLERANCE
        1000 [⟨crackLabel, none, 0⟩] crackLabel (some exampleBox)).1 = true ∧
      specDuplicate Gemini.DEDUP_TIME_WINDOW_MS Gemini.DEDUP_SPATIAL_TOLERANCE
        1000 [⟨crackLabel, none, 0⟩] crackLabel (some exampleBox) = false := by
  constructor
  · norm_num [isDuplicate, dedupMatches, dedupBoxCond, List.filter_cons,
      List.filter_nil, List.any_cons, List.any_nil,
      Gemini.DEDUP_TIME_WINDOW_MS]
  · norm_num [specDuplicate, specBoxCond, List.any_cons, List.any_nil,
      Gemini.DEDUP_TIME_WINDOW_MS]

/-- Claim C2 (amended): the dedup check answers true iff some record
younger than the window matches the candidate type case-insensitively and
either (a) both sides have boxes whose centers are closer than the
tolerance, or (b) at least one of the two sides has no box, in which case
the type match alone suffices; and the window boundary behaves as
claimed in both profiles (1ms past expiry: not a duplicate; 1ms before
expiry: duplicate). -/
theorem isDuplicate_claim :
    (∀ (window : ℤ) (tol : ℚ) (now : ℤ) (recents : List RecentDetection)
        (t : String) (ob : Option Box),
      (isDuplicate window tol now recents t ob).1 = true ↔
        ∃ r ∈ recents, now - r.timestamp < window ∧
          r.defectType.toLower = t.toLower ∧
          ((∃ b rb, ob = some b ∧ r.bbox = some rb ∧
              ((b.xmin + b.xmax) / 2 - (rb.xmin + rb.xmax) / 2) ^ 2 +
                ((b.ymin + b.ymax) / 2 - (rb.ymin + rb.ymax) / 2) ^ 2 <
                tol ^ 2) ∨
            ob = none ∨ r.bbox = none)) ∧
      (∀ (t : String) (b : Box),
        (isDuplicate Gemini.DEDUP_TIME_WINDOW_MS
            Gemini.DEDUP_SPATIAL_TOLERANCE 30001 [⟨t, some b, 0⟩] t
            (some b)).1 = false) ∧
      (∀ (t : String) (b : Box),
        (isDuplicate Gemini.DEDUP_TIME_WINDOW_MS
            Gemini.DEDUP_SPATIAL_TOLERANCE 29999 [⟨t, some b, 0⟩] t
            (some b)).1 = true) ∧
      (∀ (t : String) (b : Box),
        (isDuplicate Forensic.DEDUP_TIME_WINDOW_MS
            Forensic.DEDUP_SPATIAL_TOLERANCE 45001 [⟨t, some b, 0⟩] t
            (some b)).1 = false) ∧
      (∀ (t : String) (b : Box),
        (isDuplicate Forensic.DEDUP_TIME_WINDOW_MS
            Forensic.DEDUP_SPATIAL_TOLERANCE 44999 [⟨t, some b, 0⟩] t
            (some b)).1 = true) := by
  refine ⟨isDuplicate_iff, fun t b => ?_, fun t b => ?_, fun t b => ?_,
    fun t b => ?_⟩
  · norm_num [isDuplicate, List.filter_cons, List.filter_nil,
      Gemini.DEDUP_TIME_WINDOW_MS]
  · have hc : dedupClose b b Gemini.DEDUP_SPATIAL_TOLERANCE = true :=
      dedupClose_self b (by norm_num [Gemini.DEDUP_SPATIAL_TOLERANCE])
    norm_num [isDuplicate, dedupMatches, dedupBoxCond, List.filter_cons,
      List.filter_nil, List.any_cons, List.any_nil, hc,
      Gemini.DEDUP_TIME_WINDOW_MS]
  · norm_num [isDuplicate, List.filter_cons, List.filter_nil,
      Forensic.DEDUP_TIME_WINDOW_MS]
  · have hc : dedupClose b b Forensic.DEDUP_SPATIAL_TOLERANCE = true :=
      dedupClose_self b (by norm_num [Forensic.DEDUP_SPATIAL_TOLERANCE])
    norm_num [isDuplicate, dedupMatches, dedupBoxCond, List.filter_cons,
      List.filter_nil, List.any_cons, List.any_nil, hc,
      Forensic.DEDUP_TIME_WINDOW_MS]

/-- Witness for the amended C2 theorem: the 1ms-before-expiry case at a
concrete type and box. -/
theorem isDuplicate_claim_witness :
    (isDuplicate Gemini.DEDUP_TIME_WINDOW_MS Gemini.DEDUP_SPATIAL_TOLERANCE
        29999 [⟨crackLabel, some exampleBox, 0⟩] crackLabel
        (some exampleBox)).1 = true :=
  isDuplicate_claim.2.2.1 crackLabel exampleBox

/- ------------------------------------------------------------------ -/
/- Claim theorems: temporal consistency (C3).                         -/
/- ------------------------------------------------------------------ -/

lemma temporalLoop_eq_none {threshold : ℕ} {now : ℤ} {t : String} {b : Box}
    {c : ℚ} : ∀ {l : TemporalBuffer},
    (∀ e ∈ l, temporalMatches t b e.2 = false) →
    temporalLoop threshold now t b c l = none := by
  intro l
  induction l with
  | nil => intro _; rfl
  | cons e rest ih =>
    intro h
    obtain ⟨k, d⟩ := e
    have hd : temporalMatches t b d = false := h (k, d) (List.mem_cons_self _ _)
    simp only [temporalLoop, hd, Bool.false_eq_true, if_false]
    rw [ih fun x hx => h x (List.mem_cons_of_mem _ hx)]

lemma temporalLoop_first {threshold : ℕ} {now : ℤ} {t : String} {b : Box}
    {c : ℚ} :
    ∀ (l1 : TemporalBuffer) (k : String) (d : TemporalDetection)
      (l2 : TemporalBuffer),
      (∀ e ∈ l1, temporalMatches t b e.2 = false) →
      temporalMatches t b d = true →
      temporalLoop threshold now t b c (l1 ++ (k, d) :: l2) =
        some ((decide (threshold ≤ d.frameCount + 1), d.frameCount + 1),
          l1 ++ (k, temporalUpdate now c d) :: l2) := by
  intro l1
  induction l1 with
  | nil =>
    intro k d l2 _ hd
    simp only [List.nil_append, temporalLoop, hd, if_true]
  | cons e rest ih =>
    intro k d l2 h hd
    obtain ⟨k0, d0⟩ := e
    have h0 : temporalMatches t b d0 = false := h _ (List.mem_cons_self _ _)
    simp only [List.cons_append, temporalLoop, h0, Bool.false_eq_true,
      if_false, List.append_eq]
    rw [ih k d l2 (fun x hx => h x (List.mem_cons_of_mem _ hx)) hd]

/-- Claim C3: the temporal stage first evicts candidates whose lastSeen
is older than the 3s window; a first match (same type case-insensitively,
IoU at least 0.25) is updated in place with frameCount incremented,
lastSeen set to now and confidence raised to the maximum, and confirmed
iff the new frameCount reaches the threshold; with no match a fresh
candidate with frameCount 1 is inserted under the spatial key and
confirmed iff the threshold is at most 1. With threshold 2 the concrete
trace confirms only on the second overlapping call inside the window and
starts over at frameCount 1 after the window expires. -/
theorem temporal_claim :
    (∀ (threshold : ℕ) (now : ℤ) (buf : TemporalBuffer) (t : String)
        (b : Box) (c : ℚ),
      checkTemporalConsistency threshold now buf t b c =
        checkTemporalConsistency threshold now
          (buf.filter fun e =>
            decide (now - e.2.lastSeen ≤ Gemini.TEMPORAL_WINDOW_MS)) t b c) ∧
      (∀ (threshold : ℕ) (now : ℤ) (buf : TemporalBuffer) (t : String)
        (b : Box) (c : ℚ) (l1 l2 : TemporalBuffer) (k : String)
        (d : TemporalDetection),
        (buf.filter fun e =>
            decide (now - e.2.lastSeen ≤ Gemini.TEMPORAL_WINDOW_MS)) =
          l1 ++ (k, d) :: l2 →
        (∀ e ∈ l1, temporalMatches t b e.2 = false) →
        temporalMatches t b d = true →
        checkTemporalConsistency threshold now buf t b c =
          ((decide (threshold ≤ d.frameCount + 1), d.frameCount + 1),
            l1 ++ (k, temporalUpdate now c d) :: l2)) ∧
      (∀ (threshold : ℕ) (now : ℤ) (buf : TemporalBuffer) (t : String)
        (b : Box) (c : ℚ),
        (∀ e ∈ buf.filter fun e =>
            decide (now - e.2.lastSeen ≤ Gemini.TEMPORAL_WINDOW_MS),
          temporalMatches t b e.2 = false) →
        checkTemporalConsistency threshold now buf t b c =
          ((decide (threshold ≤ 1), 1),
            mapSet (buf.filter fun e =>
                decide (now - e.2.lastSeen ≤ Gemini.TEMPORAL_WINDOW_MS))
              (generateSpatialKey t b) ⟨t, b, c, 1, now, now⟩)) ∧
      checkTemporalConsistency 2 0 [] crackLabel exampleBox 85 =
        ((false, 1), [(generateSpatialKey crackLabel exampleBox,
          ⟨crackLabel, exampleBox, 85, 1, 0, 0⟩)]) ∧
      checkTemporalConsistency 2 1000
          [(generateSpatialKey crackLabel exampleBox,
            ⟨crackLabel, exampleBox, 85, 1, 0, 0⟩)] crackLabel exampleBox 90 =
        ((true, 2), [(generateSpatialKey crackLabel exampleBox,
          ⟨crackLabel, exampleBox, 90, 2, 0, 1000⟩)]) ∧
      checkTemporalConsistency 2 4001
          [(generateSpatialKey crackLabel exampleBox,
            ⟨crackLabel, exampleBox, 90, 2, 0, 1000⟩)] crackLabel exampleBox 85 =
        ((false, 1), [(generateSpatialKey crackLabel exampleBox,
          ⟨crackLabel, exampleBox, 85, 1, 4001, 4001⟩)]) := by
  have hiou : calculateIoU exampleBox exampleBox = 1 :=
    iou_self exampleBox (by norm_num [exampleBox]) (by norm_num [exampleBox])
  have hdec : decide
      (Gemini.IOU_THRESHOLD ≤ calculateIoU exampleBox exampleBox) = true :=
    decide_eq_true (by rw [hiou]; norm_num [Gemini.IOU_THRESHOLD])
  have hmatch : temporalMatches crackLabel exampleBox
      ⟨crackLabel, exampleBox, 85, 1, 0, 0⟩ = true := by
    simp [temporalMatches, hdec]
  refine ⟨?_, ?_, ?_, ?_, ?_, ?_⟩
  · intro threshold now buf t b c
    have hf : ((buf.filter fun e =>
        decide (now - e.2.lastSeen ≤ Gemini.TEMPORAL_WINDOW_MS)).filter
          fun e => decide (now - e.2.lastSeen ≤ Gemini.TEMPORAL_WINDOW_MS)) =
        buf.filter fun e =>
          decide (now - e.2.lastSeen ≤ Gemini.TEMPORAL_WINDOW_MS) := by
      rw [List.filter_filter]
      simp
    simp only [checkTemporalConsistency]
    rw [hf]
  · intro threshold now buf t b c l1 l2 k d hsplit h1 hd
    simp only [checkTemporalConsistency]
    rw [hsplit, temporalLoop_first l1 k d l2 h1 hd]
  · intro threshold now buf t b c h
    simp only [checkTemporalConsistency]
    rw [temporalLoop_eq_none h]
  · simp [checkTemporalConsistency, temporalLoop, mapSet]
  · norm_num [checkTemporalConsistency, List.filter_cons, List.filter_nil,
      temporalLoop, temporalUpdate, hmatch, Gemini.TEMPORAL_WINDOW_MS,
      max_def]
  · norm_num [checkTemporalConsistency, List.filter_cons, List.filter_nil,
      temporalLoop, mapSet, Gemini.TEMPORAL_WINDOW_MS]

/-- Witness for the C3 theorem: the fresh-insert case applied at a
concrete empty buffer. -/
theorem temporal_claim_witness :
    checkTemporalConsistency 2 7 [] crackLabel exampleBox 85 =
      ((false, 1), [(generateSpatialKey crackLabel exampleBox,
        ⟨crackLabel, exampleBox, 85, 1, 7, 7⟩)]) := by
  have h := temporal_claim.2.2.1 2 7 ([] : TemporalBuffer) crackLabel exampleBox
    85 (by simp)
  rw [h]
  simp [mapSet]

/- ------------------------------------------------------------------ -/
/- Claim theorems: non-maximum suppression (C4).                      -/
/- ------------------------------------------------------------------ -/

lemma shouldSuppress_iff (now : ℤ) (confirmed : List ConfirmedDetection)
    (t : String) (b : Box) (c : ℚ) :
    (shouldSuppressNMS now confirmed t b c).1 = true ↔
      ∃ r ∈ confirmed, now - r.timestamp < Gemini.NMS_WINDOW_MS ∧
        Gemini.NMS_IOU_THRESHOLD ≤ calculateIoU r.bbox b ∧
        c ≤ r.confidence := by
  simp only [shouldSuppressNMS, pruneNMS, List.any_eq_true, List.mem_filter,
    Bool.and_eq_true, decide_eq_true_eq]
  constructor
  · rintro ⟨r, ⟨hm, hage⟩, hi, hc⟩
    exact ⟨r, hm, hage, hi, hc⟩
  · rintro ⟨r, hm, hage, hi, hc⟩
    exact ⟨r, ⟨hm, hage⟩, hi, hc⟩

lemma track_mem (now : ℤ) (confirmed : List ConfirmedDetection) (t : String)
    (b : Box) (c : ℚ) (r : ConfirmedDetection) :
    r ∈ trackConfirmedDetection now confirmed t b c ↔
      (r ∈ confirmed ∧
          ¬(Gemini.NMS_IOU_THRESHOLD ≤ calculateIoU r.bbox b ∧
            r.confidence < c)) ∨
        r = ⟨t, b, c, now⟩ := by
  simp only [trackConfirmedDetection, List.mem_append, List.mem_filter,
    List.mem_singleton, Bool.not_eq_true', Bool.and_eq_false_iff,
    decide_eq_false_iff_not]
  tauto

lemma nms_scenario (A B : Box) (tA tB : String)
    (h : Gemini.NMS_IOU_THRESHOLD ≤ calculateIoU A B) :
    (shouldSuppressNMS 0 [] tA A 60).1 = false ∧
      (shouldSuppressNMS 100 (trackConfirmedDetection 0 [] tA A 60) tB B
          90).1 = false ∧
      trackConfirmedDetection 100 (trackConfirmedDetection 0 [] tA A 60) tB
          B 90 = [⟨tB, B, 90, 100⟩] ∧
      (shouldSuppressNMS 0 [] tB B 90).1 = false ∧
      (shouldSuppressNMS 100 (trackConfirmedDetection 0 [] tB B 90) tA A
          60).1 = true ∧
      (shouldSuppressNMS 100 (trackConfirmedDetection 0 [] tB B 90) tA A
          60).2 = [⟨tB, B, 90, 0⟩] := by
  have h2 : Gemini.NMS_IOU_THRESHOLD ≤ calculateIoU B A := by
    rw [iou_comm]
    exact h
  have e1 : decide (Gemini.NMS_IOU_THRESHOLD ≤ calculateIoU A B) = true :=
    decide_eq_true h
  have e2 : decide (Gemini.NMS_IOU_THRESHOLD ≤ calculateIoU B A) = true :=
    decide_eq_true h2
  refine ⟨?_, ?_, ?_, ?_, ?_, ?_⟩
  · simp [shouldSuppressNMS, pruneNMS]
  · norm_num [shouldSuppressNMS, pruneNMS, trackConfirmedDetection,
      List.filter_cons, List.filter_nil, List.any_cons, List.any_nil, e1,
      Bool.and_eq_false_iff, decide_eq_false_iff_not, Gemini.NMS_WINDOW_MS]
  · norm_num [trackConfirmedDetection, List.filter_cons, List.filter_nil,
      e1, Bool.not_eq_true', Bool.and_eq_false_iff, decide_eq_false_iff_not]
  · simp [shouldSuppressNMS, pruneNMS]
  · norm_num [shouldSuppressNMS, pruneNMS, trackConfirmedDetection,
      List.filter_cons, List.filter_nil, List.any_cons, List.any_nil, e2,
      Gemini.NMS_WINDOW_MS]
  · norm_num [shouldSuppressNMS, pruneNMS, trackConfirmedDetection,
      List.filter_cons, List.filter_nil, Gemini.NMS_WINDOW_MS]

/-- Claim C4: the NMS suppression check answers true iff some record
younger than the 5s window overlaps the new box with IoU at least 0.5 and
has confidence at least the new one; tracking evicts exactly the retained
records that overlap with IoU at least 0.5 and have strictly lower
confidence, then appends the new record; and two overlapping detections
with confidences 60 and 90, processed check-then-track in either order
within the window, leave exactly one surviving record, the one with
confidence 90. -/
theorem nms_claim :
    (∀ (now : ℤ) (confirmed : List ConfirmedDetection) (t : String)
        (b : Box) (c : ℚ),
      (shouldSuppressNMS now confirmed t b c).1 = true ↔
        ∃ r ∈ confirmed, now - r.timestamp < Gemini.NMS_WINDOW_MS ∧
          Gemini.NMS_IOU_THRESHOLD ≤ calculateIoU r.bbox b ∧
          c ≤ r.confidence) ∧
      (∀ (now : ℤ) (confirmed : List ConfirmedDetection) (t : String)
        (b : Box) (c : ℚ) (r : ConfirmedDetection),
        r ∈ trackConfirmedDetection now confirmed t b c ↔
          (r ∈ confirmed ∧
              ¬(Gemini.NMS_IOU_THRESHOLD ≤ calculateIoU r.bbox b ∧
                r.confidence < c)) ∨
            r = ⟨t, b, c, now⟩) ∧
      (∀ (A B : Box) (tA tB : String),
        Gemini.NMS_IOU_THRESHOLD ≤ calculateIoU A B →
        (shouldSuppressNMS 0 [] tA A 60).1 = false ∧
          (shouldSuppressNMS 100 (trackConfirmedDetection 0 [] tA A 60) tB
              B 90).1 = false ∧
          trackConfirmedDetection 100 (trackConfirmedDetection 0 [] tA A 60)
              tB B 90 = [⟨tB, B, 90, 100⟩] ∧
          (shouldSuppressNMS 0 [] tB B 90).1 = false ∧
          (shouldSuppressNMS 100 (trackConfirmedDetection 0 [] tB B 90) tA
              A 60).1 = true ∧
          (shouldSuppressNMS 100 (trackConfirmedDetection 0 [] tB B 90) tA
              A 60).2 = [⟨tB, B, 90, 0⟩]) :=
  ⟨shouldSuppress_iff, track_mem, nms_scenario⟩

/-- Witness for the C4 theorem: the scenario applied at a concrete pair
of identical boxes (IoU 1). -/
theorem nms_claim_witness :
    (shouldSuppressNMS 100 (trackConfirmedDetection 0 [] crackLabel exampleBox
        90) crackLabel exampleBox 60).1 = true :=
  (nms_claim.2.2 exampleBox exampleBox crackLabel crackLabel
    (by
      rw [iou_self exampleBox (by norm_num [exampleBox])
        (by norm_num [exampleBox])]
      norm_num [Gemini.NMS_IOU_THRESHOLD])).2.2.2.2.1

end DefectSpotter
